import Mathlib

/-!
# SpeechToText-Backend: a shallow embedding of the request pipeline

This file embeds the request-handling logic of `src/server/index.js`:
the CORS option function, the multer media-type filter, the
`POST /transcribe` handler (upload → read → recognize → cleanup →
persist → respond) and the `GET /transcriptions/:user_id` handler.

Effectful JavaScript code is modelled by pure functions producing an
ordered list of `Event`s (external calls and the HTTP response), so
that ordering properties ("the file deletion is initiated before the
response is sent") are statements about indices in the event list.
External collaborators (the Google recognizer, the Supabase datastore,
the filesystem) are modelled by small outcome types supplied as input.
-/

namespace SpeechToText

/-! ## CORS policy gate (index.js lines 17–43) -/

/-- The static allow-list `allowedOrigins` (index.js lines 17–20). -/
def allowedOrigins : List String :=
  ["http://localhost:5173", "https://speech-to-text-frontend-ashen.vercel.app"]

/-- The options object the `corsOptions` callback passes to the cors
middleware: the `base` fields plus the computed `origin` flag. -/
structure CorsDecision where
  credentials : Bool
  methods : List String
  allowedHeaders : List String
  maxAge : Nat
  origin : Bool
  deriving Repr, DecidableEq

/-- The `corsOptions` callback (index.js lines 22–39): absent Origin
header → allow unconditionally (`origin: true`); present → allow iff
the origin is in the allow-list. -/
def corsOptions (requestOrigin : Option String) : CorsDecision :=
  let base : CorsDecision :=
    { credentials := true
      methods := ["GET", "POST", "OPTIONS"]
      allowedHeaders := ["Content-Type", "Authorization"]
      maxAge := 86400
      origin := true }
  match requestOrigin with
  | none => { base with origin := true }
  | some o => { base with origin := allowedOrigins.contains o }

/-- The cross-origin headers observable on the response:
`allowOrigin` is the value of the permission header when present,
`varyOrigin` records the varies-by-origin caching hint. -/
structure CorsHeaders where
  allowOrigin : Option String
  varyOrigin : Bool
  deriving Repr, DecidableEq

/-- Modelled from the spec: the third-party cors middleware (a
dependency, not repository code) applied to the decision computed by
`corsOptions`.  Per the spec's Cross-Origin Policy Gate contract: when
the decision allows and an Origin header is present, the response
echoes that exact origin and carries the varies-by-origin hint;
when the decision denies, no permission header is emitted. -/
def applyCors (requestOrigin : Option String) : CorsHeaders :=
  let d := corsOptions requestOrigin
  if d.origin then
    match requestOrigin with
    | some o => { allowOrigin := some o, varyOrigin := true }
    | none => { allowOrigin := none, varyOrigin := true }
  else
    { allowOrigin := none, varyOrigin := false }

/-! ## Upload receiver (multer, index.js lines 70–83) -/

/-- The fixed media-type allow-list of the multer `fileFilter`
(index.js line 79). -/
def allowedTypes : List String := ["audio/mpeg", "audio/wav", "audio/mp3"]

/-- The multer `fileFilter` predicate (index.js lines 78–82). -/
def fileFilter (mimetype : String) : Bool := allowedTypes.contains mimetype

/-- The fields of `req.file` the handler uses. -/
structure UploadedFile where
  mimetype : String
  originalname : String
  path : String
  deriving Repr, DecidableEq

/-! ## Transcription client (index.js lines 112–134) -/

/-- The fixed recognizer configuration `request.config`
(index.js lines 114–118). -/
structure RecognizeConfig where
  encoding : String
  sampleRateHertz : Nat
  languageCode : String
  deriving Repr, DecidableEq

/-- The hardcoded configuration: `encoding: "MP3"`,
`sampleRateHertz: 16000`, `languageCode: "en-US"`. -/
def fixedConfig : RecognizeConfig :=
  { encoding := "MP3", sampleRateHertz := 16000, languageCode := "en-US" }

/-- A recognizer response: a list of result segments, each carrying
its list of alternative transcripts (first = best). -/
abbrev RecognizeResults := List (List String)

/-- The map `results.map(r => r.alternatives[0].transcript)` (index.js
line 125): `none` models the TypeError thrown when some segment's
alternatives list is empty (`alternatives[0]` is `undefined`). -/
def firstAlternatives : RecognizeResults → Option (List String)
  | [] => some []
  | seg :: rest =>
    match seg with
    | [] => none
    | a :: _ => (firstAlternatives rest).map (fun ts => a :: ts)

/-- The transcript-mapping step (index.js lines 124–126):
first alternative of each segment, joined with `"\n"`; `none` models
the throw on an empty alternatives list. -/
def mapTranscript (results : RecognizeResults) : Option String :=
  (firstAlternatives results).map (String.intercalate "\n")

/-! ## The POST /transcribe pipeline as an event trace -/

/-- A JSON response body: `{ error: msg }` or
`{ message: "Success", transcription }`. -/
inductive ResponseBody where
  | errorMsg (msg : String)
  | success (transcription : String)
  deriving Repr, DecidableEq

/-- Observable events of one request, in execution order. -/
inductive Event where
  | recognize (config : RecognizeConfig)
  | deleteFile (path : String)
  | insert (file_name : String) (transcription : String) (user_id : Option String)
  | respond (status : Nat) (body : ResponseBody)
  deriving Repr, DecidableEq

/-- Outcome of `fs.readFileSync` (index.js line 109): success, or a
thrown error with its message (caught by the outer catch). -/
inductive ReadOutcome where
  | ok
  | throws (msg : String)
  deriving Repr, DecidableEq

/-- Outcome of `client.recognize` (index.js line 123): a rejection
(caught as `apiErr`), or a resolved response with its results. -/
inductive RecognizerOutcome where
  | apiError
  | ok (results : RecognizeResults)
  deriving Repr, DecidableEq

/-- Outcome of the supabase insert (index.js lines 138–141): success,
a non-null `error` field, or a promise rejection with its message
(caught by the outer catch). -/
inductive InsertOutcome where
  | ok
  | dbError
  | throws (msg : String)
  deriving Repr, DecidableEq

/-- The behaviour of the external collaborators for one request. -/
structure TranscribeEnv where
  readFile : ReadOutcome
  recognizer : RecognizerOutcome
  insert : InsertOutcome
  deriving Repr, DecidableEq

/-- The fallback `err.message || "Unknown error"` (index.js line 152):
an empty message is falsy in JavaScript. -/
def errMessage (msg : String) : String :=
  if msg = "" then "Unknown error" else msg

/-- The `POST /transcribe` handler body (index.js lines 101–154),
entered with an accepted file.  Faithful ordering notes:
* the `finally` cleanup (line 133) runs after the `try` body or after
  the `catch` body; in the `catch` branch the `return`'s expression
  `res.status(500).json(...)` is evaluated — sending the response —
  before the `finally` block runs;
* a `readFileSync` throw and an insert rejection reach the outer
  catch (lines 150–153), which responds 500 with the error message. -/
def transcribeCore (f : UploadedFile) (user_id : Option String)
    (env : TranscribeEnv) : List Event :=
  match env.readFile with
  | .throws msg => [.respond 500 (.errorMsg (errMessage msg))]
  | .ok =>
    match env.recognizer with
    | .apiError =>
      [.recognize fixedConfig,
       .respond 500 (.errorMsg "Speech-to-Text failed"),
       .deleteFile f.path]
    | .ok results =>
      match mapTranscript results with
      | none =>
        [.recognize fixedConfig,
         .respond 500 (.errorMsg "Speech-to-Text failed"),
         .deleteFile f.path]
      | some t =>
        if t = "" then
          [.recognize fixedConfig, .deleteFile f.path,
           .respond 500 (.errorMsg "No speech detected")]
        else
          match env.insert with
          | .throws msg =>
            [.recognize fixedConfig, .deleteFile f.path,
             .insert f.originalname t user_id,
             .respond 500 (.errorMsg (errMessage msg))]
          | .dbError =>
            [.recognize fixedConfig, .deleteFile f.path,
             .insert f.originalname t user_id,
             .respond 500 (.errorMsg "Failed to save transcription")]
          | .ok =>
            [.recognize fixedConfig, .deleteFile f.path,
             .insert f.originalname t user_id,
             .respond 200 (.success t)]

/-- One `POST /transcribe` request after multipart parsing:
`file = none` when no `audio` field was sent. -/
structure TranscribeRequest where
  file : Option UploadedFile
  user_id : Option String
  deriving Repr, DecidableEq

/-- The full `POST /transcribe` route (index.js lines 89–155): the
multer middleware rejects a disallowed media type with 400
`"Invalid file type"` without calling `next()` (lines 91–100); a
missing file yields 400 `"No file uploaded"` (line 103); otherwise
the handler body runs. -/
def postTranscribe (req : TranscribeRequest) (env : TranscribeEnv) : List Event :=
  match req.file with
  | none => [.respond 400 (.errorMsg "No file uploaded")]
  | some f =>
    if fileFilter f.mimetype then
      transcribeCore f req.user_id env
    else
      [.respond 400 (.errorMsg "Invalid file type")]

/-! ## Event-trace observations -/

/-- Is this event the HTTP response? -/
def isRespond : Event → Bool
  | .respond _ _ => true
  | _ => false

/-- Is this event the transient-file deletion? -/
def isDelete : Event → Bool
  | .deleteFile _ => true
  | _ => false

/-- Is this event a recognizer call? -/
def isRecognize : Event → Bool
  | .recognize _ => true
  | _ => false

/-- Is this event a datastore insert? -/
def isInsert : Event → Bool
  | .insert _ _ _ => true
  | _ => false

/-- The (status, body) pairs of the responses in a trace. -/
def responses (evs : List Event) : List (Nat × ResponseBody) :=
  evs.filterMap (fun e =>
    match e with
    | .respond s b => some (s, b)
    | _ => none)

/-- The first event satisfying `p` occurs strictly before the first
event satisfying `q`. -/
def precedes (p q : Event → Bool) (evs : List Event) : Bool :=
  match evs.findIdx? p, evs.findIdx? q with
  | some i, some j => decide (i < j)
  | _, _ => false

/-! ## Persistence client: GET /transcriptions/:user_id
(index.js lines 158–171) -/

/-- One row of the `audio_files` table as the query handler sees it. -/
structure TranscriptRecord where
  id : Nat
  file_name : String
  transcription : String
  user_id : String
  created_at : Nat
  deriving Repr, DecidableEq

/-- Descending order on `created_at` (the `order("created_at",
{ ascending: false })` clause). -/
def createdAtDesc (a b : TranscriptRecord) : Prop :=
  b.created_at ≤ a.created_at

instance : DecidableRel createdAtDesc := fun a b =>
  inferInstanceAs (Decidable (b.created_at ≤ a.created_at))

instance : IsTotal TranscriptRecord createdAtDesc :=
  ⟨fun a b => le_total b.created_at a.created_at⟩

instance : IsTrans TranscriptRecord createdAtDesc :=
  ⟨fun _ _ _ h1 h2 => le_trans h2 h1⟩

/-- Modelled from the spec: the datastore's evaluation of the query
the handler builds — `eq("user_id", uid)` then `order("created_at",
{ ascending: false })` — over the current table contents.  The
datastore itself is an external collaborator; per the spec's
Persistence Client contract the query returns all records matching
the user identifier ordered by creation time descending. -/
def queryByUser (table : List TranscriptRecord) (uid : String) :
    List TranscriptRecord :=
  List.insertionSort createdAtDesc (table.filter (fun r => r.user_id = uid))

/-- Outcome of the supabase select (index.js lines 160–164): the
table contents on success, or a non-null `error`. -/
inductive QueryOutcome where
  | ok (table : List TranscriptRecord)
  | dbError
  deriving Repr, DecidableEq

/-- The response of `GET /transcriptions/:user_id`. -/
structure GetResult where
  status : Nat
  transcriptions : Option (List TranscriptRecord)
  errorMsg : Option String
  deriving Repr, DecidableEq

/-- The `GET /transcriptions/:user_id` handler (index.js lines
158–171): on datastore error respond 500, otherwise 200 with the
query's rows. -/
def getTranscriptions (uid : String) (q : QueryOutcome) : GetResult :=
  match q with
  | .dbError =>
    { status := 500, transcriptions := none
      errorMsg := some "Failed to fetch transcriptions" }
  | .ok table =>
    { status := 200, transcriptions := some (queryByUser table uid)
      errorMsg := none }

/-! ## Helper lemmas -/

/-- When every segment has at least one alternative, the mapping step
succeeds and yields each segment's first alternative. -/
theorem firstAlternatives_eq_map (results : RecognizeResults)
    (h : ∀ seg ∈ results, seg ≠ []) :
    firstAlternatives results = some (results.map (fun seg => seg.headD "")) := by
  induction results with
  | nil => rfl
  | cons seg rest ih =>
    cases seg with
    | nil => exact absurd rfl (h [] (List.mem_cons_self _ _))
    | cons a as =>
      have hrest := ih (fun s hs => h s (List.mem_cons_of_mem _ hs))
      simp [firstAlternatives, hrest]

/-- When some segment's alternatives list is empty, the mapping step
throws. -/
theorem firstAlternatives_none_of_mem (results : RecognizeResults)
    (h : [] ∈ results) : firstAlternatives results = none := by
  induction results with
  | nil => cases h
  | cons seg rest ih =>
    cases seg with
    | nil => rfl
    | cons a as =>
      rcases List.mem_cons.mp h with h1 | h1
      · exact List.noConfusion h1
      · simp [firstAlternatives, ih h1]

/-! ## Claim theorems -/

/-- Claim C2 (confirmed): for every recognizer response in which each
segment carries at least one alternative, the produced transcript is
the first alternative of each segment, joined with newline separators
in the service's segment order. -/
theorem transcript_joins_first_alternatives (results : RecognizeResults)
    (h : ∀ seg ∈ results, seg ≠ []) :
    mapTranscript results =
      some (String.intercalate "\n" (results.map (fun seg => seg.headD ""))) := by
  simp [mapTranscript, firstAlternatives_eq_map results h]

/-- Witness for C2: for segments `["hello"]`, `["world"]` the produced
transcript is exactly `"hello\nworld"`. -/
theorem transcript_joins_first_alternatives_witness :
    mapTranscript [["hello"], ["world"]] =
      some (String.intercalate "\n"
        ([["hello"], ["world"]].map (fun seg => seg.headD ""))) ∧
    mapTranscript [["hello"], ["world"]] = some "hello\nworld" :=
  ⟨transcript_joins_first_alternatives [["hello"], ["world"]] (by decide),
   by decide⟩

/-- Claim C3 (confirmed): a recognizer response with zero segments
yields an empty transcript, the endpoint responds 500 with
"No speech detected", no datastore insert happens, and no 200 success
response is produced. -/
theorem zero_segments_no_speech (f : UploadedFile) (uid : Option String)
    (env : TranscribeEnv) (hm : fileFilter f.mimetype = true)
    (hr : env.readFile = ReadOutcome.ok)
    (hrec : env.recognizer = RecognizerOutcome.ok []) :
    postTranscribe ⟨some f, uid⟩ env =
      [Event.recognize fixedConfig, Event.deleteFile f.path,
       Event.respond 500 (ResponseBody.errorMsg "No speech detected")] ∧
    (postTranscribe ⟨some f, uid⟩ env).filter isInsert = [] ∧
    responses (postTranscribe ⟨some f, uid⟩ env) =
      [(500, ResponseBody.errorMsg "No speech detected")] := by
  obtain ⟨rf, rec, ins⟩ := env
  simp only at hr hrec
  subst hr; subst hrec
  have h1 : postTranscribe ⟨some f, uid⟩ ⟨ReadOutcome.ok, RecognizerOutcome.ok [], ins⟩ =
      [Event.recognize fixedConfig, Event.deleteFile f.path,
       Event.respond 500 (ResponseBody.errorMsg "No speech detected")] := by
    have he : String.intercalate "\n" ([] : List String) = "" := rfl
    simp [postTranscribe, hm, transcribeCore, mapTranscript, firstAlternatives, he]
  exact ⟨h1, by rw [h1]; rfl, by rw [h1]; rfl⟩

/-- Witness for C3 at a concrete mp3 upload with an empty recognizer
response. -/
theorem zero_segments_no_speech_witness :
    postTranscribe ⟨some ⟨"audio/mpeg", "a.mp3", "uploads/1-a.mp3"⟩, some "u1"⟩
        ⟨ReadOutcome.ok, RecognizerOutcome.ok [], InsertOutcome.ok⟩ =
      [Event.recognize fixedConfig, Event.deleteFile "uploads/1-a.mp3",
       Event.respond 500 (ResponseBody.errorMsg "No speech detected")] ∧
    (postTranscribe ⟨some ⟨"audio/mpeg", "a.mp3", "uploads/1-a.mp3"⟩, some "u1"⟩
        ⟨ReadOutcome.ok, RecognizerOutcome.ok [], InsertOutcome.ok⟩).filter isInsert = [] ∧
    responses (postTranscribe ⟨some ⟨"audio/mpeg", "a.mp3", "uploads/1-a.mp3"⟩, some "u1"⟩
        ⟨ReadOutcome.ok, RecognizerOutcome.ok [], InsertOutcome.ok⟩) =
      [(500, ResponseBody.errorMsg "No speech detected")] :=
  zero_segments_no_speech ⟨"audio/mpeg", "a.mp3", "uploads/1-a.mp3"⟩ (some "u1")
    ⟨ReadOutcome.ok, RecognizerOutcome.ok [], InsertOutcome.ok⟩ (by decide) rfl rfl

/-- Claim C4 (confirmed): a declared media type outside the fixed
allow-list makes POST /transcribe respond 400 with no recognizer call
and no datastore insert. -/
theorem disallowed_type_rejected (f : UploadedFile) (uid : Option String)
    (env : TranscribeEnv) (hm : fileFilter f.mimetype = false) :
    postTranscribe ⟨some f, uid⟩ env =
      [Event.respond 400 (ResponseBody.errorMsg "Invalid file type")] ∧
    (postTranscribe ⟨some f, uid⟩ env).filter isRecognize = [] ∧
    (postTranscribe ⟨some f, uid⟩ env).filter isInsert = [] := by
  have h1 : postTranscribe ⟨some f, uid⟩ env =
      [Event.respond 400 (ResponseBody.errorMsg "Invalid file type")] := by
    simp [postTranscribe, hm]
  exact ⟨h1, by rw [h1]; rfl, by rw [h1]; rfl⟩

/-- Witness for C4 at a text/plain upload. -/
theorem disallowed_type_rejected_witness :
    postTranscribe ⟨some ⟨"text/plain", "a.txt", "uploads/1-a.txt"⟩, some "u1"⟩
        ⟨ReadOutcome.ok, RecognizerOutcome.ok [["hi"]], InsertOutcome.ok⟩ =
      [Event.respond 400 (ResponseBody.errorMsg "Invalid file type")] ∧
    (postTranscribe ⟨some ⟨"text/plain", "a.txt", "uploads/1-a.txt"⟩, some "u1"⟩
        ⟨ReadOutcome.ok, RecognizerOutcome.ok [["hi"]], InsertOutcome.ok⟩).filter
      isRecognize = [] ∧
    (postTranscribe ⟨some ⟨"text/plain", "a.txt", "uploads/1-a.txt"⟩, some "u1"⟩
        ⟨ReadOutcome.ok, RecognizerOutcome.ok [["hi"]], InsertOutcome.ok⟩).filter
      isInsert = [] :=
  disallowed_type_rejected ⟨"text/plain", "a.txt", "uploads/1-a.txt"⟩ (some "u1")
    ⟨ReadOutcome.ok, RecognizerOutcome.ok [["hi"]], InsertOutcome.ok⟩ (by decide)

/-- Claim C6 (confirmed): with no Origin header, permission is granted
unconditionally; with an Origin header, permission is granted iff the
origin is in the static allow-list; a matching origin is echoed back
exactly together with the varies-by-origin hint, and a non-matching
origin gets no permission header. -/
theorem cors_policy (o : String) :
    (corsOptions none).origin = true ∧
    (corsOptions (some o)).origin = allowedOrigins.contains o ∧
    (allowedOrigins.contains o = true →
      applyCors (some o) = { allowOrigin := some o, varyOrigin := true }) ∧
    (allowedOrigins.contains o = false →
      (applyCors (some o)).allowOrigin = none) := by
  refine ⟨rfl, rfl, ?_, ?_⟩ <;> intro h
  · have hm : o ∈ allowedOrigins := by simpa using h
    simp [applyCors, corsOptions, hm]
  · have hm : o ∉ allowedOrigins := by simpa using h
    simp [applyCors, corsOptions, hm]

/-- Witness for C6 at the first allow-listed origin and at a foreign
origin. -/
theorem cors_policy_witness :
    applyCors (some "http://localhost:5173") =
      { allowOrigin := some "http://localhost:5173", varyOrigin := true } ∧
    (applyCors (some "http://evil.example")).allowOrigin = none :=
  ⟨(cors_policy "http://localhost:5173").2.2.1 (by decide),
   (cors_policy "http://evil.example").2.2.2 (by decide)⟩

/-- Claim C7 (confirmed): every recognizer invocation made by
POST /transcribe carries the one hardcoded configuration —
encoding "MP3", 16000 Hz, "en-US" — whatever the uploaded file's
declared type (WAV uploads included). -/
theorem recognizer_config_fixed (req : TranscribeRequest) (env : TranscribeEnv)
    (cfg : RecognizeConfig)
    (h : Event.recognize cfg ∈ postTranscribe req env) :
    cfg = fixedConfig ∧
    fixedConfig = ⟨"MP3", 16000, "en-US"⟩ := by
  refine ⟨?_, rfl⟩
  unfold postTranscribe transcribeCore at h
  repeat' split at h
  all_goals simp_all

/-- Witness for C7: a WAV upload still triggers a recognize call with
the MP3/16000/en-US configuration. -/
theorem recognizer_config_fixed_witness :
    fixedConfig = ⟨"MP3", 16000, "en-US"⟩ ∧
    Event.recognize fixedConfig ∈
      postTranscribe ⟨some ⟨"audio/wav", "a.wav", "uploads/1-a.wav"⟩, some "u1"⟩
        ⟨ReadOutcome.ok, RecognizerOutcome.ok [["hi"]], InsertOutcome.ok⟩ :=
  ⟨(recognizer_config_fixed
      ⟨some ⟨"audio/wav", "a.wav", "uploads/1-a.wav"⟩, some "u1"⟩
      ⟨ReadOutcome.ok, RecognizerOutcome.ok [["hi"]], InsertOutcome.ok⟩
      fixedConfig (by decide)).2,
   by decide⟩

/-- Claim C5 (confirmed): GET /transcriptions/:user_id returns, with
status 200, exactly the records whose user_id matches — the whole
filtered table, unpaginated and unlimited — ordered by created_at
descending; on datastore error it returns 500. -/
theorem get_transcriptions_spec (uid : String) (table : List TranscriptRecord) :
    (getTranscriptions uid (QueryOutcome.ok table)).status = 200 ∧
    (getTranscriptions uid (QueryOutcome.ok table)).transcriptions =
      some (queryByUser table uid) ∧
    List.Perm (queryByUser table uid)
      (table.filter (fun r => r.user_id = uid)) ∧
    List.Sorted createdAtDesc (queryByUser table uid) ∧
    (getTranscriptions uid QueryOutcome.dbError).status = 500 := by
  refine ⟨rfl, rfl, ?_, ?_, rfl⟩
  · exact List.perm_insertionSort createdAtDesc _
  · exact List.sorted_insertionSort createdAtDesc _

/-- Counterexample to claim C1 as stated: at a concrete mp3 upload
whose recognizer call fails, the 500 response is sent strictly before
the file deletion is initiated (the return expression of the catch
block is evaluated before the finally block runs), so the removal
does not happen before the HTTP response on every transcription
path. -/
theorem cleanup_before_response_cex :
    precedes isDelete isRespond
      (postTranscribe ⟨some ⟨"audio/mpeg", "a.mp3", "uploads/1-a.mp3"⟩, some "u1"⟩
        ⟨ReadOutcome.ok, RecognizerOutcome.apiError, InsertOutcome.ok⟩) = false ∧
    precedes isRespond isDelete
      (postTranscribe ⟨some ⟨"audio/mpeg", "a.mp3", "uploads/1-a.mp3"⟩, some "u1"⟩
        ⟨ReadOutcome.ok, RecognizerOutcome.apiError, InsertOutcome.ok⟩) = true ∧
    Event.deleteFile "uploads/1-a.mp3" ∈
      postTranscribe ⟨some ⟨"audio/mpeg", "a.mp3", "uploads/1-a.mp3"⟩, some "u1"⟩
        ⟨ReadOutcome.ok, RecognizerOutcome.apiError, InsertOutcome.ok⟩ := by
  decide

/-- Claim C1 (amended): whenever the transcription stage is entered,
a deletion of the transient file is always initiated before the
handler finishes, on success and failure alike; on every path where
the recognize call and the transcript mapping succeed (success,
no-speech, persistence error or rejection) the deletion is initiated
before the response; but on the recognizer-failure paths the 500
response is sent before the deletion is initiated. -/
theorem cleanup_amended (f : UploadedFile) (uid : Option String)
    (env : TranscribeEnv) (hm : fileFilter f.mimetype = true)
    (hr : env.readFile = ReadOutcome.ok) :
    Event.deleteFile f.path ∈ postTranscribe ⟨some f, uid⟩ env ∧
    (∀ results t, env.recognizer = RecognizerOutcome.ok results →
      mapTranscript results = some t →
      precedes isDelete isRespond (postTranscribe ⟨some f, uid⟩ env) = true) ∧
    (env.recognizer = RecognizerOutcome.apiError →
      precedes isRespond isDelete (postTranscribe ⟨some f, uid⟩ env) = true) ∧
    (∀ results, env.recognizer = RecognizerOutcome.ok results →
      mapTranscript results = none →
      precedes isRespond isDelete (postTranscribe ⟨some f, uid⟩ env) = true) := by
  obtain ⟨rf, rec, ins⟩ := env
  simp only at hr
  subst hr
  refine ⟨?_, ?_, ?_, ?_⟩
  · cases rec with
    | apiError => simp [postTranscribe, hm, transcribeCore]
    | ok results =>
      rcases hmt : mapTranscript results with _ | t
      · simp [postTranscribe, hm, transcribeCore, hmt]
      · by_cases ht : t = "" <;>
          cases ins <;>
          simp [postTranscribe, hm, transcribeCore, hmt, ht]
  · intro results t hrec hmt
    simp only at hrec
    subst hrec
    by_cases ht : t = "" <;>
      cases ins <;>
      simp [postTranscribe, hm, transcribeCore, hmt, ht, precedes,
        isDelete, isRespond, List.findIdx?]
  · intro hrec
    simp only at hrec
    subst hrec
    simp [postTranscribe, hm, transcribeCore, precedes,
      isRespond, isDelete, List.findIdx?]
  · intro results hrec hmt
    simp only at hrec
    subst hrec
    simp [postTranscribe, hm, transcribeCore, hmt, precedes,
      isRespond, isDelete, List.findIdx?]

/-- Witness for the amended C1: a successful mp3 transcription both
deletes the file and does so before the response; a failed recognize
call responds before deleting. -/
theorem cleanup_amended_witness :
    Event.deleteFile "uploads/2-b.mp3" ∈
      postTranscribe ⟨some ⟨"audio/mp3", "b.mp3", "uploads/2-b.mp3"⟩, none⟩
        ⟨ReadOutcome.ok, RecognizerOutcome.ok [["hey"]], InsertOutcome.ok⟩ ∧
    precedes isDelete isRespond
      (postTranscribe ⟨some ⟨"audio/mp3", "b.mp3", "uploads/2-b.mp3"⟩, none⟩
        ⟨ReadOutcome.ok, RecognizerOutcome.ok [["hey"]], InsertOutcome.ok⟩) = true ∧
    precedes isRespond isDelete
      (postTranscribe ⟨some ⟨"audio/mp3", "b.mp3", "uploads/2-b.mp3"⟩, none⟩
        ⟨ReadOutcome.ok, RecognizerOutcome.apiError, InsertOutcome.ok⟩) = true :=
  ⟨(cleanup_amended ⟨"audio/mp3", "b.mp3", "uploads/2-b.mp3"⟩ none
      ⟨ReadOutcome.ok, RecognizerOutcome.ok [["hey"]], InsertOutcome.ok⟩
      (by decide) rfl).1,
   (cleanup_amended ⟨"audio/mp3", "b.mp3", "uploads/2-b.mp3"⟩ none
      ⟨ReadOutcome.ok, RecognizerOutcome.ok [["hey"]], InsertOutcome.ok⟩
      (by decide) rfl).2.1 [["hey"]] "hey" rfl rfl,
   (cleanup_amended ⟨"audio/mp3", "b.mp3", "uploads/2-b.mp3"⟩ none
      ⟨ReadOutcome.ok, RecognizerOutcome.apiError, InsertOutcome.ok⟩
      (by decide) rfl).2.2.1 rfl⟩

/-- Claim C8 (confirmed): every request produces exactly one
response; a readFileSync throw and a rejected insert both reach the
outer catch, which responds 500 with the exception's message (with
the "Unknown error" fallback for an empty message). -/
theorem outer_catch_500 (req : TranscribeRequest) (env : TranscribeEnv) :
    (responses (postTranscribe req env)).length = 1 ∧
    (∀ f msg, req.file = some f → fileFilter f.mimetype = true →
      env.readFile = ReadOutcome.throws msg →
      responses (postTranscribe req env) =
        [(500, ResponseBody.errorMsg (errMessage msg))]) ∧
    (∀ f msg results t, req.file = some f → fileFilter f.mimetype = true →
      env.readFile = ReadOutcome.ok →
      env.recognizer = RecognizerOutcome.ok results →
      mapTranscript results = some t → t ≠ "" →
      env.insert = InsertOutcome.throws msg →
      responses (postTranscribe req env) =
        [(500, ResponseBody.errorMsg (errMessage msg))]) := by
  obtain ⟨file, uid⟩ := req
  obtain ⟨rf, rec, ins⟩ := env
  refine ⟨?_, ?_, ?_⟩
  · unfold postTranscribe transcribeCore
    repeat' split
    all_goals rfl
  · intro f msg hf hm hrd
    simp only at hf hrd
    subst hf; subst hrd
    simp [postTranscribe, hm, transcribeCore, responses]
  · intro f msg results t hf hm hrd hrec hmt ht hins
    simp only at hf hrd hrec hins
    subst hf; subst hrd; subst hrec; subst hins
    simp [postTranscribe, hm, transcribeCore, hmt, ht, responses]

/-- Witness for C8: a file-read error and an insert rejection each
yield a single 500 response carrying the raw message. -/
theorem outer_catch_500_witness :
    responses (postTranscribe
        ⟨some ⟨"audio/mpeg", "a.mp3", "uploads/1-a.mp3"⟩, some "u1"⟩
        ⟨ReadOutcome.throws "ENOENT", RecognizerOutcome.apiError, InsertOutcome.ok⟩) =
      [(500, ResponseBody.errorMsg (errMessage "ENOENT"))] ∧
    responses (postTranscribe
        ⟨some ⟨"audio/mpeg", "a.mp3", "uploads/1-a.mp3"⟩, some "u1"⟩
        ⟨ReadOutcome.ok, RecognizerOutcome.ok [["hi"]],
         InsertOutcome.throws "socket hang up"⟩) =
      [(500, ResponseBody.errorMsg (errMessage "socket hang up"))] :=
  ⟨(outer_catch_500 ⟨some ⟨"audio/mpeg", "a.mp3", "uploads/1-a.mp3"⟩, some "u1"⟩
      ⟨ReadOutcome.throws "ENOENT", RecognizerOutcome.apiError, InsertOutcome.ok⟩).2.1
      ⟨"audio/mpeg", "a.mp3", "uploads/1-a.mp3"⟩ "ENOENT" rfl (by decide) rfl,
   (outer_catch_500 ⟨some ⟨"audio/mpeg", "a.mp3", "uploads/1-a.mp3"⟩, some "u1"⟩
      ⟨ReadOutcome.ok, RecognizerOutcome.ok [["hi"]],
       InsertOutcome.throws "socket hang up"⟩).2.2
      ⟨"audio/mpeg", "a.mp3", "uploads/1-a.mp3"⟩ "socket hang up" [["hi"]] "hi"
      rfl (by decide) rfl rfl rfl (by decide) rfl⟩

/-- Claim C9 (confirmed): a recognizer response containing a segment
with an empty alternatives list makes the mapping step throw; the
inner catch answers 500 "Speech-to-Text failed", the transient file
is still deleted, and no insert and no success response occur. -/
theorem empty_alternatives_caught (f : UploadedFile) (uid : Option String)
    (env : TranscribeEnv) (results : RecognizeResults)
    (hm : fileFilter f.mimetype = true)
    (hr : env.readFile = ReadOutcome.ok)
    (hrec : env.recognizer = RecognizerOutcome.ok results)
    (hseg : [] ∈ results) :
    postTranscribe ⟨some f, uid⟩ env =
      [Event.recognize fixedConfig,
       Event.respond 500 (ResponseBody.errorMsg "Speech-to-Text failed"),
       Event.deleteFile f.path] ∧
    (postTranscribe ⟨some f, uid⟩ env).filter isInsert = [] ∧
    Event.deleteFile f.path ∈ postTranscribe ⟨some f, uid⟩ env := by
  obtain ⟨rf, rec, ins⟩ := env
  simp only at hr hrec
  subst hr; subst hrec
  have hmt : mapTranscript results = none := by
    simp [mapTranscript, firstAlternatives_none_of_mem results hseg]
  have h1 : postTranscribe ⟨some f, uid⟩
      ⟨ReadOutcome.ok, RecognizerOutcome.ok results, ins⟩ =
      [Event.recognize fixedConfig,
       Event.respond 500 (ResponseBody.errorMsg "Speech-to-Text failed"),
       Event.deleteFile f.path] := by
    simp [postTranscribe, hm, transcribeCore, hmt]
  refine ⟨h1, by rw [h1]; rfl, by rw [h1]; simp⟩

/-- Witness for C9 at a response whose only segment has no
alternatives. -/
theorem empty_alternatives_caught_witness :
    postTranscribe ⟨some ⟨"audio/mpeg", "a.mp3", "uploads/1-a.mp3"⟩, some "u1"⟩
        ⟨ReadOutcome.ok, RecognizerOutcome.ok [[]], InsertOutcome.ok⟩ =
      [Event.recognize fixedConfig,
       Event.respond 500 (ResponseBody.errorMsg "Speech-to-Text failed"),
       Event.deleteFile "uploads/1-a.mp3"] ∧
    (postTranscribe ⟨some ⟨"audio/mpeg", "a.mp3", "uploads/1-a.mp3"⟩, some "u1"⟩
        ⟨ReadOutcome.ok, RecognizerOutcome.ok [[]], InsertOutcome.ok⟩).filter
      isInsert = [] ∧
    Event.deleteFile "uploads/1-a.mp3" ∈
      postTranscribe ⟨some ⟨"audio/mpeg", "a.mp3", "uploads/1-a.mp3"⟩, some "u1"⟩
        ⟨ReadOutcome.ok, RecognizerOutcome.ok [[]], InsertOutcome.ok⟩ :=
  empty_alternatives_caught ⟨"audio/mpeg", "a.mp3", "uploads/1-a.mp3"⟩ (some "u1")
    ⟨ReadOutcome.ok, RecognizerOutcome.ok [[]], InsertOutcome.ok⟩ [[]]
    (by decide) rfl rfl (by decide)

/-- Claim C10 (confirmed): user_id is never validated — with a valid
file and a non-empty transcript the insert is attempted with the
missing user_id passed through as an undefined value, and every
response on such a request has status 200 or 500, never 4xx. -/
theorem user_id_unvalidated (f : UploadedFile) (env : TranscribeEnv)
    (results : RecognizeResults) (t : String)
    (hm : fileFilter f.mimetype = true)
    (hr : env.readFile = ReadOutcome.ok)
    (hrec : env.recognizer = RecognizerOutcome.ok results)
    (hmt : mapTranscript results = some t) (ht : t ≠ "") :
    Event.insert f.originalname t none ∈ postTranscribe ⟨some f, none⟩ env ∧
    (∀ s b, (s, b) ∈ responses (postTranscribe ⟨some f, none⟩ env) →
      s = 200 ∨ s = 500) := by
  obtain ⟨rf, rec, ins⟩ := env
  simp only at hr hrec
  subst hr; subst hrec
  constructor
  · cases ins <;> simp [postTranscribe, hm, transcribeCore, hmt, ht]
  · intro s b hs
    cases ins <;>
      simp [postTranscribe, hm, transcribeCore, hmt, ht, responses] at hs <;>
      omega

/-- Witness for C10: an mp3 upload with no user_id form field still
reaches the insert, and the request answers 200. -/
theorem user_id_unvalidated_witness :
    Event.insert "a.mp3" "hi" none ∈
      postTranscribe ⟨some ⟨"audio/mpeg", "a.mp3", "uploads/1-a.mp3"⟩, none⟩
        ⟨ReadOutcome.ok, RecognizerOutcome.ok [["hi"]], InsertOutcome.ok⟩ ∧
    (∀ s b, (s, b) ∈ responses
        (postTranscribe ⟨some ⟨"audio/mpeg", "a.mp3", "uploads/1-a.mp3"⟩, none⟩
          ⟨ReadOutcome.ok, RecognizerOutcome.ok [["hi"]], InsertOutcome.ok⟩) →
      s = 200 ∨ s = 500) :=
  user_id_unvalidated ⟨"audio/mpeg", "a.mp3", "uploads/1-a.mp3"⟩
    ⟨ReadOutcome.ok, RecognizerOutcome.ok [["hi"]], InsertOutcome.ok⟩
    [["hi"]] "hi" (by decide) rfl rfl rfl (by decide)

end SpeechToText
